import Mathlib

/-!
Verification development for the course-template backend's video-hosting
integration (the "Bunny" subsystem): signed-URL generation
(`bunny_service.py`), the video lifecycle tracker (`views.py`:
`confirm_bunny_upload`, `check_video_status`, `delete_bunny_video`), the
lesson access decision (`serializers.py`: `LessonSerializer.get_signed_video_url`)
and the lesson/video binding write path (`LessonWriteSerializer`).

Machine integers are modelled as `Nat` with explicit reduction modulo `2^32`
where the hash algorithm needs 32-bit wraparound.  The SHA-256 implementation
below embeds Python's `hashlib.sha256` as used by the source; strings are
hashed over their UTF-8 byte sequences exactly as `str.encode()` produces
them.
-/

set_option maxRecDepth 100000
set_option maxHeartbeats 2000000

namespace CourseVideo

/-- Reduce to a 32-bit word. -/
def w32 (n : Nat) : Nat := n % 4294967296

/-- Right rotation of a 32-bit word. -/
def rotr (n x : Nat) : Nat := w32 ((x >>> n) ||| (x <<< (32 - n)))

/-- SHA-256 Σ0. -/
def bigSigma0 (x : Nat) : Nat := rotr 2 x ^^^ rotr 13 x ^^^ rotr 22 x

/-- SHA-256 Σ1. -/
def bigSigma1 (x : Nat) : Nat := rotr 6 x ^^^ rotr 11 x ^^^ rotr 25 x

/-- SHA-256 σ0. -/
def smallSigma0 (x : Nat) : Nat := rotr 7 x ^^^ rotr 18 x ^^^ (x >>> 3)

/-- SHA-256 σ1. -/
def smallSigma1 (x : Nat) : Nat := rotr 17 x ^^^ rotr 19 x ^^^ (x >>> 10)

/-- SHA-256 Ch; the complement of a 32-bit word `x` is `4294967295 - x`. -/
def ch (x y z : Nat) : Nat := (x &&& y) ^^^ ((4294967295 - w32 x) &&& z)

/-- SHA-256 Maj. -/
def maj (x y z : Nat) : Nat := (x &&& y) ^^^ (x &&& z) ^^^ (y &&& z)

/-- The 64 SHA-256 round constants (fractional cube roots of the first 64
primes, in decimal). -/
def K256 : List Nat :=
  [1116352408, 1899447441, 3049323471, 3921009573, 961987163, 1508970993,
   2453635748, 2870763221, 3624381080, 310598401, 607225278, 1426881987,
   1925078388, 2162078206, 2614888103, 3248222580, 3835390401, 4022224774,
   264347078, 604807628, 770255983, 1249150122, 1555081692, 1996064986,
   2554220882, 2821834349, 2952996808, 3210313671, 3336571891, 3584528711,
   113926993, 338241895, 666307205, 773529912, 1294757372, 1396182291,
   1695183700, 1986661051, 2177026350, 2456956037, 2730485921, 2820302411,
   3259730800, 3345764771, 3516065817, 3600352804, 4094571909, 275423344,
   430227734, 506948616, 659060556, 883997877, 958139571, 1322822218,
   1537002063, 1747873779, 1955562222, 2024104815, 2227730452, 2361852424,
   2428436474, 2756734187, 3204031479, 3329325298]

/-- The eight SHA-256 working variables / chaining values. -/
structure Hash8 where
  a : Nat
  b : Nat
  c : Nat
  d : Nat
  e : Nat
  f : Nat
  g : Nat
  h : Nat
  deriving Repr, DecidableEq

/-- SHA-256 initial hash value (fractional square roots of the first eight
primes, in decimal). -/
def initH : Hash8 :=
  ⟨1779033703, 3144134277, 1013904242, 2773480762,
   1359893119, 2600822924, 528734635, 1541459225⟩

/-- One SHA-256 compression round. -/
def compressStep (k w : Nat) (s : Hash8) : Hash8 :=
  let t1 := w32 (s.h + bigSigma1 s.e + ch s.e s.f s.g + k + w)
  let t2 := w32 (bigSigma0 s.a + maj s.a s.b s.c)
  ⟨w32 (t1 + t2), s.a, s.b, s.c, w32 (s.d + t1), s.e, s.f, s.g⟩

/-- Run the 64 compression rounds over the round constants and schedule. -/
def compressLoop : List Nat → List Nat → Hash8 → Hash8
  | k :: ks, w :: ws, s => compressLoop ks ws (compressStep k w s)
  | _, _, s => s

/-- Componentwise 32-bit addition of hash states. -/
def addState (s t : Hash8) : Hash8 :=
  ⟨w32 (s.a + t.a), w32 (s.b + t.b), w32 (s.c + t.c), w32 (s.d + t.d),
   w32 (s.e + t.e), w32 (s.f + t.f), w32 (s.g + t.g), w32 (s.h + t.h)⟩

/-- `n` rendered as `k` big-endian bytes. -/
def natToBytesBE : Nat → Nat → List Nat
  | 0, _ => []
  | k + 1, n => natToBytesBE k (n / 256) ++ [n % 256]

/-- SHA-256 padding: append `0x80`, zeros, then the bit length as 8 bytes. -/
def padMessage (msg : List Nat) : List Nat :=
  let L := msg.length
  let k := (119 - L % 64) % 64
  msg ++ [0x80] ++ List.replicate k 0 ++ natToBytesBE 8 (L * 8)

/-- Group bytes into big-endian 32-bit words. -/
def bytesToWords : List Nat → List Nat
  | a :: b :: c :: d :: rest => (((a * 256 + b) * 256 + c) * 256 + d) :: bytesToWords rest
  | _ => []

/-- Extend the 16-word block to the 64-word message schedule (48 steps). -/
def extendW (w : List Nat) : Nat → List Nat
  | 0 => w
  | fuel + 1 =>
    let n := w.length
    let wi := w32 (smallSigma1 (w.getD (n - 2) 0) + w.getD (n - 7) 0 +
                   smallSigma0 (w.getD (n - 15) 0) + w.getD (n - 16) 0)
    extendW (w ++ [wi]) fuel

/-- Process one 64-byte block. -/
def processBlock (s : Hash8) (block : List Nat) : Hash8 :=
  addState s (compressLoop K256 (extendW (bytesToWords block) 48) s)

/-- Split into 64-byte blocks, with explicit fuel for structural recursion. -/
def chunksAux : Nat → List Nat → List (List Nat)
  | 0, _ => []
  | fuel + 1, l => if l = [] then [] else l.take 64 :: chunksAux fuel (l.drop 64)

/-- Split the padded message into 64-byte blocks. -/
def chunks64 (l : List Nat) : List (List Nat) := chunksAux l.length l

/-- SHA-256 of a byte sequence, as 32 big-endian digest bytes. -/
def sha256Bytes (msg : List Nat) : List Nat :=
  let s := (chunks64 (padMessage msg)).foldl processBlock initH
  natToBytesBE 4 s.a ++ natToBytesBE 4 s.b ++ natToBytesBE 4 s.c ++ natToBytesBE 4 s.d ++
  natToBytesBE 4 s.e ++ natToBytesBE 4 s.f ++ natToBytesBE 4 s.g ++ natToBytesBE 4 s.h

/-- Lowercase hex alphabet. -/
def hexChars : List Char := "0123456789abcdef".data

/-- One hex digit. -/
def hexDigit (n : Nat) : Char := hexChars.getD (n % 16) '0'

/-- Bytes rendered as lowercase hex characters (Python's `.hexdigest()`). -/
def hexEncodeChars (bytes : List Nat) : List Char :=
  bytes.flatMap (fun b => [hexDigit (b / 16), hexDigit (b % 16)])

/-- UTF-8 encoding of one Unicode code point (Python's `str.encode()`). -/
def utf8Bytes (c : Nat) : List Nat :=
  if c < 128 then [c]
  else if c < 2048 then [192 + c / 64, 128 + c % 64]
  else if c < 65536 then [224 + c / 4096, 128 + c / 64 % 64, 128 + c % 64]
  else [240 + c / 262144, 128 + c / 4096 % 64, 128 + c / 64 % 64, 128 + c % 64]

/-- UTF-8 bytes of a string. -/
def strBytes (s : String) : List Nat := s.data.flatMap (fun ch => utf8Bytes ch.toNat)

/-- `hashlib.sha256(s.encode()).hexdigest()`. -/
def sha256HexStr (s : String) : String := String.mk (hexEncodeChars (sha256Bytes (strBytes s)))

/-- The URL-safe base64 alphabet (RFC 4648 §5), as used by
`base64.urlsafe_b64encode`. -/
def b64urlChars : List Char :=
  "ABCDEFGHIJKLMNOPQRSTUVWXYZabcdefghijklmnopqrstuvwxyz0123456789-_".data

/-- One base64url digit. -/
def b64Digit (n : Nat) : Char := b64urlChars.getD (n % 64) 'A'

/-- URL-safe base64 encoding with `=` padding (`base64.urlsafe_b64encode`). -/
def b64urlEncodeCore : List Nat → List Char
  | [] => []
  | [a] => [b64Digit (a / 4), b64Digit (a % 4 * 16), '=', '=']
  | [a, b] => [b64Digit (a / 4), b64Digit (a % 4 * 16 + b / 16), b64Digit (b % 16 * 4), '=']
  | a :: b :: c :: rest =>
    b64Digit (a / 4) :: b64Digit (a % 4 * 16 + b / 16) ::
    b64Digit (b % 16 * 4 + c / 64) :: b64Digit (c % 64) :: b64urlEncodeCore rest

/-- Strip trailing `=` characters (Python's `.rstrip('=')`). -/
def rstripEq (l : List Char) : List Char := (l.reverse.dropWhile (fun c => c = '=')).reverse

/-! ## URL inspection helpers

Used to state what a generated URL "embeds as a query parameter": the query
component is the text after the first `?`, its parameters are separated by
`&`, and each parameter's value is the text after its first `=`. -/

/-- Split a character list on a separator (the separator is dropped). -/
def splitOnChar (c : Char) : List Char → List (List Char)
  | [] => [[]]
  | x :: xs =>
    let r := splitOnChar c xs
    if x = c then [] :: r
    else
      match r with
      | [] => [[x]]
      | y :: ys => (x :: y) :: ys

/-- The query component of a URL: the text after the first `?`. -/
def queryPart (url : String) : List Char := (splitOnChar '?' url.data).getD 1 []

/-- The values of the URL's query parameters, in order. -/
def queryParamValues (url : String) : List (List Char) :=
  (splitOnChar '&' (queryPart url)).map (fun seg => (splitOnChar '=' seg).getD 1 [])

/-- `v` occurs as the value of some query parameter of `url`. -/
def hasQueryParamValue (url v : String) : Bool :=
  (queryParamValues url).contains v.data

/-! ## `bunny_service.py`: `BunnyStreamService`

The signed-URL cache (`django.core.cache`) memoizes these pure computations;
the definitions below model the computation performed on a cache miss.  The
current time (`time.time()`) is passed explicitly as `now`. -/

/-- Configuration of `BunnyStreamService` (from Django settings). -/
structure BunnyStreamService where
  library_id : String
  api_key : String
  cdn_hostname : String
  security_key : String

/-- `BunnyStreamService.generate_signed_url`. -/
def generate_signed_url (svc : BunnyStreamService) (guid : String)
    (now expires_hours : Nat) : String :=
  let expiry := now + expires_hours * 3600
  let token := sha256HexStr (svc.security_key ++ guid ++ toString expiry)
  "https://iframe.mediadelivery.net/embed/" ++ svc.library_id ++ "/" ++ guid ++
    "?token=" ++ token ++ "&expires=" ++ toString expiry

/-- `BunnyStreamService.generate_signed_thumbnail_url`. -/
def generate_signed_thumbnail_url (svc : BunnyStreamService) (guid : String)
    (now expires_hours : Nat) : String :=
  let expiry := now + expires_hours * 3600
  let path := "/" ++ guid ++ "/thumbnail.jpg"
  let tokenHash := sha256Bytes (strBytes (svc.security_key ++ path ++ toString expiry))
  let token := String.mk (rstripEq (b64urlEncodeCore tokenHash))
  "https://" ++ svc.cdn_hostname ++ path ++ "?token=" ++ token ++ "&expires=" ++ toString expiry

/-! ## `models.py`: `BunnyVideo` -/

/-- `BunnyVideo.VIDEO_STATUS_CHOICES`. -/
inductive VideoStatus
  | uploading
  | processing
  | ready
  | failed
  deriving Repr, DecidableEq

/-- The fields of a `BunnyVideo` record touched by the lifecycle operations. -/
structure BunnyVideo where
  guid : String
  title : String
  status : VideoStatus
  duration_seconds : Option Int
  file_size_bytes : Option Int
  thumbnail_blurhash : String
  thumbnail_url : String
  deriving Repr, DecidableEq

/-- The remote host's JSON payload for `get_video_status`, restricted to the
keys the views read.  `none` models an absent key (Python's `dict.get`). -/
structure BunnyPayload where
  status : Nat
  length : Option Int
  storageSize : Option Int
  thumbnailBlurhash : Option String
  thumbnailFileName : Option String
  deriving Repr, DecidableEq

/-- Python's `x or default` on an optional string: `None` and `''` are falsy. -/
def orDefault (s : Option String) (d : String) : String :=
  match s with
  | none => d
  | some s => if s = "" then d else s

/-! ## `views.py`: video lifecycle operations

Remote calls are modelled by passing in the outcome of
`BunnyStreamService.get_video_status` as an `Except`: `.ok payload` for a
successful fetch, `.error e` for a raised exception. -/

/-- The record mutation performed by `confirm_bunny_upload` after a
successful remote status fetch (`views.py` lines 520-537). -/
def confirmUpdate (svc : BunnyStreamService) (video : BunnyVideo)
    (p : BunnyPayload) : BunnyVideo :=
  let st :=
    if p.status = 4 then VideoStatus.ready
    else if p.status = 5 then VideoStatus.failed
    else if p.status ≥ 1 then VideoStatus.processing
    else video.status
  { video with
    status := st
    duration_seconds := p.length
    file_size_bytes := p.storageSize
    thumbnail_blurhash := p.thumbnailBlurhash.getD ""
    thumbnail_url := "https://" ++ svc.cdn_hostname ++ "/" ++ video.guid ++ "/" ++
      orDefault p.thumbnailFileName "thumbnail.jpg" }

/-- `confirm_bunny_upload` (after the staff and 404 guards): first component
is the HTTP response (the serialized record, or the propagated error detail),
second component is the stored record after the call. -/
def confirm_bunny_upload (svc : BunnyStreamService) (video : BunnyVideo)
    (remote : Except String BunnyPayload) : Except String BunnyVideo × BunnyVideo :=
  match remote with
  | .error e => (.error ("Failed to fetch video status: " ++ e), video)
  | .ok p =>
    let v' := confirmUpdate svc video p
    (.ok v', v')

/-- `check_video_status` (after the staff and 404 guards): first component is
the stored record after the call (also what the response reports), second
component counts remote `get_video_status` calls made. -/
def check_video_status (svc : BunnyStreamService) (video : BunnyVideo)
    (remote : Except String BunnyPayload) : BunnyVideo × Nat :=
  if video.status = VideoStatus.uploading ∨ video.status = VideoStatus.processing then
    match remote with
    | .error _ => (video, 1)
    | .ok p =>
      if p.status = 4 then
        ({ video with
           status := VideoStatus.ready
           duration_seconds := p.length
           file_size_bytes := p.storageSize
           thumbnail_blurhash := p.thumbnailBlurhash.getD ""
           thumbnail_url := "https://" ++ svc.cdn_hostname ++ "/" ++ video.guid ++ "/" ++
             orDefault p.thumbnailFileName "thumbnail.jpg" }, 1)
      else if p.status = 5 then
        ({ video with status := VideoStatus.failed }, 1)
      else (video, 1)
  else (video, 0)

/-- The HTTP outcome of `delete_bunny_video`. -/
inductive DeleteResponse
  | conflict
  | deleted
  deriving Repr, DecidableEq

/-- `delete_bunny_video` (after the staff and 404 guards): `lessonRefs` is the
number of lessons referencing the video (`video.lessons.exists()`), `remote`
the outcome of `service.delete_video` (`.error` for a raised exception,
`.ok b` for its boolean result).  First component is the HTTP response,
second is whether the local record still exists after the call. -/
def delete_bunny_video (lessonRefs : Nat) (_remote : Except String Bool) :
    DeleteResponse × Bool :=
  if lessonRefs > 0 then (DeleteResponse.conflict, true)
  else (DeleteResponse.deleted, false)

/-! ## `serializers.py`: lesson access decision and lesson write path -/

/-- The request user, as the serializer reads it. -/
structure User where
  id : Nat
  is_authenticated : Bool
  is_staff : Bool
  deriving Repr, DecidableEq

/-- The viewing lesson, restricted to the fields the access decision reads:
its optional bound video, its free-preview flag and its course. -/
structure Lesson where
  bunny_video : Option BunnyVideo
  is_free_preview : Bool
  course_id : Nat
  deriving Repr, DecidableEq

/-- `LessonSerializer.get_signed_video_url`.  `enrollments` lists
`(user id, course id)` pairs; `request` is `self.context.get('request')`
(`none` when absent). -/
def get_signed_video_url (svc : BunnyStreamService) (enrollments : List (Nat × Nat))
    (lesson : Lesson) (request : Option User) (now : Nat) : Option String :=
  match lesson.bunny_video with
  | none => none
  | some v =>
    if v.status ≠ VideoStatus.ready then none
    else
      match request with
      | none => none
      | some user =>
        if user.is_authenticated = false then none
        else if user.is_staff then some (generate_signed_url svc v.guid now 6)
        else
          let is_enrolled := enrollments.contains (user.id, lesson.course_id)
          if is_enrolled || lesson.is_free_preview then
            some (generate_signed_url svc v.guid now 6)
          else none

/-- The lesson fields written by the lesson write serializer. -/
structure LessonRec where
  video_url : String
  bunny_video : Option Nat
  deriving Repr, DecidableEq

/-- The validated write payload: `bunny_video_id` is `none` when the key is
absent or explicitly null, `video_url` is `none` when the key is absent. -/
structure LessonWriteData where
  bunny_video_id : Option Nat
  video_url : Option String
  deriving Repr, DecidableEq

namespace LessonWriteSerializer

/-- `LessonWriteSerializer.update`: `existing` lists the ids of stored
`BunnyVideo` rows (the `.get`/`DoesNotExist` lookup); after the explicit
binding logic, `super().update` re-applies every remaining validated field. -/
def update (existing : List Nat) (instv : LessonRec) (d : LessonWriteData) : LessonRec :=
  let inst1 :=
    match d.bunny_video_id with
    | some vid =>
      if vid ∈ existing then { instv with bunny_video := some vid, video_url := "" }
      else instv
    | none =>
      match d.video_url with
      | some u => if u ≠ "" then { instv with bunny_video := none } else instv
      | none => instv
  match d.video_url with
  | some u => { inst1 with video_url := u }
  | none => inst1

/-- `LessonWriteSerializer.create`: `super().create` stores the validated
fields (the model default for `video_url` is `''`), then a truthy
`bunny_video_id` binds the video and clears the URL. -/
def create (existing : List Nat) (d : LessonWriteData) : LessonRec :=
  let instv : LessonRec := { video_url := d.video_url.getD "", bunny_video := none }
  match d.bunny_video_id with
  | some vid =>
    if vid ≠ 0 ∧ vid ∈ existing then { instv with bunny_video := some vid, video_url := "" }
    else instv
  | none => instv

end LessonWriteSerializer

/-! ## Helper lemmas -/

theorem getD_mem_of_lt {α : Type} (l : List α) (n : Nat) (d : α) (h : n < l.length) :
    l.getD n d ∈ l := by
  rw [List.getD_eq_getElem?_getD, List.getElem?_eq_getElem h]
  exact List.getElem_mem h

theorem hexDigit_mem (n : Nat) : hexDigit n ∈ hexChars := by
  unfold hexDigit
  exact getD_mem_of_lt _ _ _ (Nat.mod_lt _ (by norm_num))

theorem b64Digit_mem (n : Nat) : b64Digit n ∈ b64urlChars := by
  unfold b64Digit
  exact getD_mem_of_lt _ _ _ (Nat.mod_lt _ (by norm_num))

theorem hexEncodeChars_mem (bytes : List Nat) :
    ∀ c ∈ hexEncodeChars bytes, c ∈ hexChars := by
  intro c hc
  unfold hexEncodeChars at hc
  rw [List.mem_flatMap] at hc
  obtain ⟨b, _, hb⟩ := hc
  simp only [List.mem_cons, List.not_mem_nil, or_false] at hb
  rcases hb with h | h <;> exact h ▸ hexDigit_mem _

theorem sha256HexStr_chars (s : String) : ∀ c ∈ (sha256HexStr s).data, c ∈ hexChars := by
  intro c hc
  exact hexEncodeChars_mem _ c hc

/-! ## Lifecycle sequences (for the transition invariant) -/

/-- One lifecycle trigger together with the outcome of its remote call. -/
inductive LifecycleOp
  | confirm (remote : Except String BunnyPayload)
  | poll (remote : Except String BunnyPayload)

/-- Apply one trigger to the stored record. -/
def applyOp (svc : BunnyStreamService) (video : BunnyVideo) : LifecycleOp → BunnyVideo
  | LifecycleOp.confirm r => (confirm_bunny_upload svc video r).2
  | LifecycleOp.poll r => (check_video_status svc video r).1

/-- Run a sequence of triggers against the stored record. -/
def runOps (svc : BunnyStreamService) (video : BunnyVideo) (ops : List LifecycleOp) : BunnyVideo :=
  ops.foldl (applyOp svc) video

/-- The forward order on statuses asserted by the spec: a status may stay
put, `uploading` may advance to any later stage, `processing` to `ready` or
`failed`; `ready` and `failed` are terminal. -/
def forwardStep (s t : VideoStatus) : Prop :=
  s = t ∨
  (s = VideoStatus.uploading ∧
    (t = VideoStatus.processing ∨ t = VideoStatus.ready ∨ t = VideoStatus.failed)) ∨
  (s = VideoStatus.processing ∧ (t = VideoStatus.ready ∨ t = VideoStatus.failed))

instance (s t : VideoStatus) : Decidable (forwardStep s t) := by
  unfold forwardStep
  infer_instance

/-- The status written by `confirmUpdate` is ready, failed, processing, or
the record's prior status. -/
theorem confirmUpdate_status (svc : BunnyStreamService) (v : BunnyVideo) (p : BunnyPayload) :
    (confirmUpdate svc v p).status = VideoStatus.ready ∨
    (confirmUpdate svc v p).status = VideoStatus.failed ∨
    (confirmUpdate svc v p).status = VideoStatus.processing ∨
    (confirmUpdate svc v p).status = v.status := by
  unfold confirmUpdate
  split_ifs <;> simp

/-- The status after a poll is ready, failed, or the prior status. -/
theorem poll_status (svc : BunnyStreamService) (v : BunnyVideo)
    (r : Except String BunnyPayload) :
    (check_video_status svc v r).1.status = VideoStatus.ready ∨
    (check_video_status svc v r).1.status = VideoStatus.failed ∨
    (check_video_status svc v r).1.status = v.status := by
  unfold check_video_status
  split
  · cases r with
    | error e => right; right; rfl
    | ok p =>
      dsimp only
      split_ifs <;> simp
  · right; right; rfl

/-! ## Concrete fixtures for scenarios, counterexamples and witnesses -/

/-- A concrete service configuration. -/
def svcW : BunnyStreamService := ⟨"LIB", "apikey", "cdn.example.com", "s3cr3t"⟩

/-- A concrete record still in the `uploading` state. -/
def videoUploading : BunnyVideo :=
  ⟨"vid-guid", "Intro", VideoStatus.uploading, none, none, "", ""⟩

/-- A concrete record that has already reached `ready`. -/
def videoReady : BunnyVideo :=
  ⟨"vid-guid", "Intro", VideoStatus.ready, some 90, some 1000, "LKO",
   "https://cdn.example.com/vid-guid/thumbnail.jpg"⟩

/-- A remote payload with status code `n` and concrete metadata. -/
def payloadW (n : Nat) : BunnyPayload := ⟨n, some 95, some 2048, some "XYZ", some "thumb_5.jpg"⟩

/-! ## Token shape lemmas -/

theorem natToBytesBE_length (k n : Nat) : (natToBytesBE k n).length = k := by
  induction k generalizing n with
  | zero => rfl
  | succ k ih => simp [natToBytesBE, ih]

theorem sha256Bytes_length (msg : List Nat) : (sha256Bytes msg).length = 32 := by
  unfold sha256Bytes
  simp [natToBytesBE_length]

theorem hexEncodeChars_length (bytes : List Nat) :
    (hexEncodeChars bytes).length = 2 * bytes.length := by
  unfold hexEncodeChars
  induction bytes with
  | nil => rfl
  | cons b bs ih =>
    rw [List.flatMap_cons]
    simp only [List.length_append, List.length_cons, List.length_nil, ih]
    omega

theorem b64Core_length (l : List Nat) :
    (b64urlEncodeCore l).length = (l.length + 2) / 3 * 4 := by
  induction l using b64urlEncodeCore.induct <;> simp [b64urlEncodeCore, *] <;> omega

theorem b64Core_chars (l : List Nat) :
    ∀ c ∈ b64urlEncodeCore l, c ∈ b64urlChars ∨ c = '=' := by
  induction l using b64urlEncodeCore.induct with
  | case1 =>
    intro c hc
    cases hc
  | case2 a =>
    intro c hc
    simp only [b64urlEncodeCore, List.mem_cons, List.not_mem_nil, or_false] at hc
    rcases hc with h | h | h | h <;> subst h
    · exact Or.inl (b64Digit_mem _)
    · exact Or.inl (b64Digit_mem _)
    · exact Or.inr rfl
    · exact Or.inr rfl
  | case3 a b =>
    intro c hc
    simp only [b64urlEncodeCore, List.mem_cons, List.not_mem_nil, or_false] at hc
    rcases hc with h | h | h | h <;> subst h
    · exact Or.inl (b64Digit_mem _)
    · exact Or.inl (b64Digit_mem _)
    · exact Or.inl (b64Digit_mem _)
    · exact Or.inr rfl
  | case4 a b c rest ih =>
    intro x hx
    simp only [b64urlEncodeCore, List.mem_cons] at hx
    rcases hx with h | h | h | h | h
    · exact h ▸ Or.inl (b64Digit_mem _)
    · exact h ▸ Or.inl (b64Digit_mem _)
    · exact h ▸ Or.inl (b64Digit_mem _)
    · exact h ▸ Or.inl (b64Digit_mem _)
    · exact ih x h

theorem head_dropWhile_false {α : Type} (p : α → Bool) (l : List α) (x : α)
    (h : (l.dropWhile p).head? = some x) : p x = false := by
  induction l with
  | nil => simp [List.dropWhile] at h
  | cons a as ih =>
    rw [List.dropWhile_cons] at h
    split at h
    · exact ih h
    · next hpa =>
      simp only [List.head?_cons, Option.some.injEq] at h
      subst h
      simpa using hpa

theorem rstripEq_subset (l : List Char) : ∀ c ∈ rstripEq l, c ∈ l := by
  intro c hc
  unfold rstripEq at hc
  rw [List.mem_reverse] at hc
  have h1 : c ∈ l.reverse := List.dropWhile_subset _ hc
  exact List.mem_reverse.mp h1

theorem length_dropWhile_le {α : Type} (p : α → Bool) (l : List α) :
    (l.dropWhile p).length ≤ l.length := by
  induction l with
  | nil => simp [List.dropWhile]
  | cons a as ih =>
    rw [List.dropWhile_cons]
    split
    · exact Nat.le_succ_of_le ih
    · exact Nat.le_refl _

theorem rstripEq_length_le (l : List Char) : (rstripEq l).length ≤ l.length := by
  unfold rstripEq
  rw [List.length_reverse]
  calc (l.reverse.dropWhile _).length
      ≤ l.reverse.length := length_dropWhile_le _ _
    _ = l.length := List.length_reverse l

theorem rstripEq_getLast (l : List Char) : (rstripEq l).getLast? ≠ some '=' := by
  intro h
  unfold rstripEq at h
  rw [List.getLast?_reverse] at h
  have h1 := head_dropWhile_false _ _ _ h
  simp at h1

/-! ## Claim theorems -/

/-- C2 counterexample: for library id `"LIB"`, guid `"abc123"` and expiry
1700000000, the signed playback URL's query parameters carry exactly the
token and the expiry as values — neither the library id nor the guid appears
as a query parameter value (they are path segments), contradicting the claim
that all four are embedded as query parameters. -/
theorem c2_counterexample :
    hasQueryParamValue (generate_signed_url svcW "abc123" 1699978400 6) "LIB" = false ∧
    hasQueryParamValue (generate_signed_url svcW "abc123" 1699978400 6) "abc123" = false ∧
    hasQueryParamValue (generate_signed_url svcW "abc123" 1699978400 6)
      (sha256HexStr "s3cr3tabc1231700000000") = true ∧
    hasQueryParamValue (generate_signed_url svcW "abc123" 1699978400 6) "1700000000" = true := by
  decide

/-- C2 (amended): the playback signed URL computes
`expiry = now + hours * 3600`, `token` as the hex SHA-256 digest of
`secret ‖ guid ‖ expiry` concatenated as raw strings in that order, and
embeds library id and guid in the URL path and the hex token and decimal
expiry as the query parameters. -/
theorem c2_signed_url (svc : BunnyStreamService) (guid : String) (now hrs : Nat) :
    ∃ expiry token,
      expiry = now + hrs * 3600 ∧
      token = sha256HexStr (svc.security_key ++ guid ++ toString expiry) ∧
      (∀ c ∈ token.data, c ∈ hexChars) ∧
      generate_signed_url svc guid now hrs =
        "https://iframe.mediadelivery.net/embed/" ++ svc.library_id ++ "/" ++ guid ++
          "?token=" ++ token ++ "&expires=" ++ toString expiry :=
  ⟨now + hrs * 3600, sha256HexStr (svc.security_key ++ guid ++ toString (now + hrs * 3600)),
   rfl, rfl, sha256HexStr_chars _, rfl⟩

/-- Witness for C2 at the spec's scenario (`guid="abc123"`,
`secret="s3cr3t"`, `expiry=1700000000`): the URL follows the amended shape
and the token equals the reference SHA-256 digest of
`"s3cr3tabc1231700000000"`. -/
theorem c2_witness :
    generate_signed_url svcW "abc123" 1699978400 6 =
      "https://iframe.mediadelivery.net/embed/" ++ svcW.library_id ++ "/" ++ "abc123" ++
        "?token=" ++
        sha256HexStr (svcW.security_key ++ "abc123" ++ toString (1699978400 + 6 * 3600)) ++
        "&expires=" ++ toString (1699978400 + 6 * 3600) ∧
    sha256HexStr "s3cr3tabc1231700000000" =
      "c1e09d13d83439117ec40d947f9bb65aebf99087e9f5f3ce3dede995339b7866" ∧
    generate_signed_url svcW "abc123" 1699978400 6 =
      "https://iframe.mediadelivery.net/embed/LIB/abc123?token=c1e09d13d83439117ec40d947f9bb65aebf99087e9f5f3ce3dede995339b7866&expires=1700000000" := by
  refine ⟨?_, by decide, by decide⟩
  obtain ⟨expiry, token, rfl, rfl, hhex, hurl⟩ := c2_signed_url svcW "abc123" 1699978400 6
  exact hurl

/-- C8: the thumbnail signed URL hashes `secret ‖ path ‖ expiry` over
`path = "/" + guid + "/thumbnail.jpg"` and renders the digest in stripped
URL-safe base64, so the token contains no `+` or `/` and has no trailing
`=`; it can never coincide with any hex-rendered SHA-256 digest (such as the
playback token), the encodings having different lengths. -/
theorem c8_thumbnail_token (svc : BunnyStreamService) (guid : String) (now hrs : Nat) :
    ∃ expiry path token,
      expiry = now + hrs * 3600 ∧
      path = "/" ++ guid ++ "/thumbnail.jpg" ∧
      token = String.mk (rstripEq (b64urlEncodeCore
        (sha256Bytes (strBytes (svc.security_key ++ path ++ toString expiry))))) ∧
      generate_signed_thumbnail_url svc guid now hrs =
        "https://" ++ svc.cdn_hostname ++ path ++ "?token=" ++ token ++
          "&expires=" ++ toString expiry ∧
      (∀ c ∈ token.data, c ≠ '+' ∧ c ≠ '/') ∧
      token.data.getLast? ≠ some '=' ∧
      (∀ s : String, token ≠ sha256HexStr s) := by
  refine ⟨now + hrs * 3600, "/" ++ guid ++ "/thumbnail.jpg", _, rfl, rfl, rfl, rfl, ?_, ?_, ?_⟩
  · intro c hc
    rcases b64Core_chars _ c (rstripEq_subset _ c hc) with h2 | h2
    · refine ⟨?_, ?_⟩ <;> rintro rfl <;> exact absurd h2 (by decide)
    · subst h2
      exact ⟨by decide, by decide⟩
  · exact rstripEq_getLast _
  · intro s hEq
    have hd : rstripEq (b64urlEncodeCore (sha256Bytes (strBytes
        (svc.security_key ++ ("/" ++ guid ++ "/thumbnail.jpg") ++
          toString (now + hrs * 3600))))) = hexEncodeChars (sha256Bytes (strBytes s)) :=
      congrArg String.data hEq
    have hlen := congrArg List.length hd
    have hle := rstripEq_length_le (b64urlEncodeCore (sha256Bytes (strBytes
        (svc.security_key ++ ("/" ++ guid ++ "/thumbnail.jpg") ++
          toString (now + hrs * 3600)))))
    rw [b64Core_length, sha256Bytes_length] at hle
    rw [hexEncodeChars_length, sha256Bytes_length] at hlen
    omega

/-- Witness for C8 at concrete inputs: the thumbnail URL carries the
stripped base64url token of the reference digest, and its characters avoid
`+`, `/` and trailing `=`. -/
theorem c8_witness :
    (∀ c ∈ (String.mk (rstripEq (b64urlEncodeCore (sha256Bytes (strBytes
        (svcW.security_key ++ ("/" ++ "abc123" ++ "/thumbnail.jpg") ++
          toString (1699978400 + 6 * 3600))))))).data, c ≠ '+' ∧ c ≠ '/') ∧
    generate_signed_thumbnail_url svcW "abc123" 1699978400 6 =
      "https://cdn.example.com/abc123/thumbnail.jpg?token=29l5goIjqoKfQ5jDlk-9dhyOMWiVqTYs3sU5qJMy4SA&expires=1700000000" := by
  refine ⟨?_, by decide⟩
  obtain ⟨expiry, path, token, rfl, hpath, htok, hurl, hchars, hlast, hhex⟩ :=
    c8_thumbnail_token svcW "abc123" 1699978400 6
  subst hpath
  subst htok
  exact hchars

/-- C1: the access decision for a lesson's signed playback URL grants exactly
when the lesson has a bound video whose status is ready, the viewer is an
authenticated user, and the viewer is staff, enrolled in the lesson's course,
or the lesson is a free preview; in every other case (no video, video not
ready — even for staff —, anonymous viewer — even for free previews —, or an
unenrolled non-staff viewer of a non-preview lesson) the field is `none`,
not an error. -/
theorem c1_access_decision (svc : BunnyStreamService) (enrollments : List (Nat × Nat))
    (lesson : Lesson) (request : Option User) (now : Nat) :
    (get_signed_video_url svc enrollments lesson request now).isSome = true ↔
      (∃ v, lesson.bunny_video = some v ∧ v.status = VideoStatus.ready) ∧
      (∃ u, request = some u ∧ u.is_authenticated = true ∧
        (u.is_staff = true ∨ enrollments.contains (u.id, lesson.course_id) = true ∨
         lesson.is_free_preview = true)) := by
  obtain ⟨bv, fp, cid⟩ := lesson
  cases bv with
  | none => simp [get_signed_video_url]
  | some v =>
    cases request with
    | none => simp [get_signed_video_url]
    | some u =>
      simp only [get_signed_video_url]
      split_ifs <;> simp_all

/-- C7: a remote failure during an explicit confirm propagates as a
user-visible error and leaves the record unchanged; a remote failure during a
poll is swallowed and the prior local record is returned unchanged. -/
theorem c7_error_asymmetry (svc : BunnyStreamService) (video : BunnyVideo) (e : String) :
    confirm_bunny_upload svc video (Except.error e) =
      (Except.error ("Failed to fetch video status: " ++ e), video) ∧
    (check_video_status svc video (Except.error e)).1 = video := by
  refine ⟨rfl, ?_⟩
  unfold check_video_status
  split <;> rfl

/-- C9: deleting a video referenced by at least one lesson is rejected with a
referential-conflict response and the record is retained; deleting an
unreferenced video removes the local record whatever the remote deletion
call's outcome. -/
theorem c9_referential_guard (lessonRefs : Nat) (remote : Except String Bool) :
    (0 < lessonRefs →
      delete_bunny_video lessonRefs remote = (DeleteResponse.conflict, true)) ∧
    (lessonRefs = 0 →
      delete_bunny_video lessonRefs remote = (DeleteResponse.deleted, false)) := by
  constructor
  · intro h
    unfold delete_bunny_video
    rw [if_pos h]
  · intro h
    subst h
    rfl

/-- C3: after a successful remote fetch, confirm maps remote code 4 to ready
and copies duration, file size and blurhash from the payload, setting the
thumbnail URL to `https://{cdnHost}/{guid}/{thumbnailFilenameOrDefault}`;
code 5 becomes `failed` without raising an error; codes 1-3 become
`processing`; code 0 leaves the status unchanged. -/
theorem c3_confirm_mapping (svc : BunnyStreamService) (video : BunnyVideo) (p : BunnyPayload) :
    (p.status = 4 →
      confirm_bunny_upload svc video (Except.ok p) =
        (Except.ok (confirmUpdate svc video p), confirmUpdate svc video p) ∧
      (confirmUpdate svc video p).status = VideoStatus.ready ∧
      (confirmUpdate svc video p).duration_seconds = p.length ∧
      (confirmUpdate svc video p).file_size_bytes = p.storageSize ∧
      (confirmUpdate svc video p).thumbnail_blurhash = p.thumbnailBlurhash.getD "" ∧
      (confirmUpdate svc video p).thumbnail_url =
        "https://" ++ svc.cdn_hostname ++ "/" ++ video.guid ++ "/" ++
          orDefault p.thumbnailFileName "thumbnail.jpg") ∧
    (p.status = 5 →
      confirm_bunny_upload svc video (Except.ok p) =
        (Except.ok (confirmUpdate svc video p), confirmUpdate svc video p) ∧
      (confirmUpdate svc video p).status = VideoStatus.failed) ∧
    (1 ≤ p.status → p.status ≤ 3 →
      (confirmUpdate svc video p).status = VideoStatus.processing) ∧
    (p.status = 0 → (confirmUpdate svc video p).status = video.status) := by
  refine ⟨?_, ?_, ?_, ?_⟩
  · intro h4
    refine ⟨rfl, ?_, rfl, rfl, rfl, rfl⟩
    simp [confirmUpdate, h4]
  · intro h5
    refine ⟨rfl, ?_⟩
    simp [confirmUpdate, h5]
  · intro h1 h3
    have hne4 : ¬ p.status = 4 := by omega
    have hne5 : ¬ p.status = 5 := by omega
    simp [confirmUpdate, hne4, hne5, h1]
  · intro h0
    simp [confirmUpdate, h0]

/-- Witness for C3 at concrete inputs: codes 5, 2, 0 and 4 map to failed,
processing, unchanged and ready respectively. -/
theorem c3_witness :
    (confirmUpdate svcW videoUploading (payloadW 5)).status = VideoStatus.failed ∧
    (confirmUpdate svcW videoUploading (payloadW 2)).status = VideoStatus.processing ∧
    (confirmUpdate svcW videoUploading (payloadW 0)).status = videoUploading.status ∧
    (confirmUpdate svcW videoUploading (payloadW 4)).status = VideoStatus.ready :=
  ⟨((c3_confirm_mapping svcW videoUploading (payloadW 5)).2.1 rfl).2,
   (c3_confirm_mapping svcW videoUploading (payloadW 2)).2.2.1 (by decide) (by decide),
   (c3_confirm_mapping svcW videoUploading (payloadW 0)).2.2.2 rfl,
   ((c3_confirm_mapping svcW videoUploading (payloadW 4)).1 rfl).2.1⟩

/-- C4 counterexample: polling an `uploading` video while the remote reports
code 2 leaves the local status `uploading`, whereas the confirm mapping the
claim asserts for polls would move it to `processing`. -/
theorem c4_counterexample :
    (check_video_status svcW videoUploading (Except.ok (payloadW 2))).1.status =
      VideoStatus.uploading ∧
    (confirmUpdate svcW videoUploading (payloadW 2)).status = VideoStatus.processing := by
  decide

/-- C4 (amended): polling a terminal video performs zero remote calls and
returns the unchanged record; polling a non-terminal video maps remote code 4
to ready, code 5 to failed, and leaves the record unchanged for every other
code (codes 1-3 included, unlike confirm). -/
theorem c4_poll_mapping (svc : BunnyStreamService) (video : BunnyVideo)
    (remote : Except String BunnyPayload) (p : BunnyPayload) :
    ((video.status = VideoStatus.ready ∨ video.status = VideoStatus.failed) →
      check_video_status svc video remote = (video, 0)) ∧
    ((video.status = VideoStatus.uploading ∨ video.status = VideoStatus.processing) →
      ((p.status = 4 →
          (check_video_status svc video (Except.ok p)).1.status = VideoStatus.ready) ∧
       (p.status = 5 →
          (check_video_status svc video (Except.ok p)).1.status = VideoStatus.failed) ∧
       (p.status ≠ 4 → p.status ≠ 5 →
          (check_video_status svc video (Except.ok p)).1 = video))) := by
  constructor
  · intro hterm
    have hnt : ¬ (video.status = VideoStatus.uploading ∨ video.status = VideoStatus.processing) := by
      rcases hterm with h | h <;> rw [h] <;> simp
    unfold check_video_status
    rw [if_neg hnt]
  · intro hnt
    refine ⟨?_, ?_, ?_⟩
    · intro h4
      unfold check_video_status
      rw [if_pos hnt]
      simp [h4]
    · intro h5
      have hne4 : ¬ p.status = 4 := by omega
      unfold check_video_status
      rw [if_pos hnt]
      simp [hne4, h5]
    · intro hne4 hne5
      unfold check_video_status
      rw [if_pos hnt]
      simp [hne4, hne5]

/-- Witness for C4 at concrete inputs: a ready video polls with zero remote
calls; an uploading video polls to ready on code 4, to failed on code 5, and
is untouched on code 3. -/
theorem c4_witness :
    check_video_status svcW videoReady (Except.ok (payloadW 2)) = (videoReady, 0) ∧
    (check_video_status svcW videoUploading (Except.ok (payloadW 4))).1.status =
      VideoStatus.ready ∧
    (check_video_status svcW videoUploading (Except.ok (payloadW 5))).1.status =
      VideoStatus.failed ∧
    (check_video_status svcW videoUploading (Except.ok (payloadW 3))).1 = videoUploading :=
  ⟨(c4_poll_mapping svcW videoReady (Except.ok (payloadW 2)) (payloadW 2)).1 (Or.inl rfl),
   ((c4_poll_mapping svcW videoUploading (Except.ok (payloadW 4)) (payloadW 4)).2
      (Or.inl rfl)).1 rfl,
   ((c4_poll_mapping svcW videoUploading (Except.ok (payloadW 5)) (payloadW 5)).2
      (Or.inl rfl)).2.1 rfl,
   ((c4_poll_mapping svcW videoUploading (Except.ok (payloadW 3)) (payloadW 3)).2
      (Or.inl rfl)).2.2 (by decide) (by decide)⟩

/-- C5 counterexample: a confirm re-invoked on a record that already reached
`ready`, with the remote reporting code 1, drags the status back to
`processing` — a reversion the claimed invariant forbids. -/
theorem c5_counterexample :
    (runOps svcW videoReady [LifecycleOp.confirm (Except.ok (payloadW 1))]).status =
      VideoStatus.processing ∧
    ¬ forwardStep VideoStatus.ready VideoStatus.processing := by
  decide

/-- C5 (amended): every poll, and every confirm applied while the record is
still non-terminal, moves the status forward along uploading → processing →
ready or to failed from a non-terminal state; so the claimed invariant holds
of exactly those confirm/poll sequences in which confirm is only triggered on
non-terminal records (re-confirming a terminal record can revert it). -/
theorem c5_forward_transitions (svc : BunnyStreamService) (video : BunnyVideo)
    (op : LifecycleOp)
    (h : (∃ r, op = LifecycleOp.poll r) ∨
         video.status = VideoStatus.uploading ∨ video.status = VideoStatus.processing) :
    forwardStep video.status (applyOp svc video op).status := by
  cases op with
  | poll r =>
    simp only [applyOp]
    by_cases hnt : video.status = VideoStatus.uploading ∨ video.status = VideoStatus.processing
    · rcases poll_status svc video r with h1 | h1 | h1 <;> rw [h1]
      · rcases hnt with h' | h' <;> rw [h'] <;> decide
      · rcases hnt with h' | h' <;> rw [h'] <;> decide
      · exact Or.inl rfl
    · unfold check_video_status
      rw [if_neg hnt]
      exact Or.inl rfl
  | confirm r =>
    have hnt : video.status = VideoStatus.uploading ∨ video.status = VideoStatus.processing := by
      rcases h with ⟨r', hr⟩ | h' | h'
      · simp at hr
      · exact Or.inl h'
      · exact Or.inr h'
    cases r with
    | error e => exact Or.inl rfl
    | ok p =>
      show forwardStep video.status (confirmUpdate svc video p).status
      rcases confirmUpdate_status svc video p with h1 | h1 | h1 | h1 <;> rw [h1]
      · rcases hnt with h' | h' <;> rw [h'] <;> decide
      · rcases hnt with h' | h' <;> rw [h'] <;> decide
      · rcases hnt with h' | h' <;> rw [h'] <;> decide
      · exact Or.inl rfl

/-- Witness for C5: confirming an uploading record on remote code 4 is a
forward transition. -/
theorem c5_witness :
    forwardStep videoUploading.status
      (applyOp svcW videoUploading (LifecycleOp.confirm (Except.ok (payloadW 4)))).status :=
  c5_forward_transitions svcW videoUploading (LifecycleOp.confirm (Except.ok (payloadW 4)))
    (Or.inr (Or.inl rfl))

/-- At most one of a lesson's two video binding fields is set. -/
def exclusiveBinding (l : LessonRec) : Prop := l.video_url = "" ∨ l.bunny_video = none

instance (l : LessonRec) : Decidable (exclusiveBinding l) := by
  unfold exclusiveBinding
  infer_instance

/-- C6 counterexample: one update supplying both an existing `bunny_video_id`
and a non-empty `video_url` leaves both fields set — the binding clears the
URL, but `super().update` then re-applies the supplied URL. -/
theorem c6_counterexample :
    (LessonWriteSerializer.update [1] ⟨"", none⟩
        ⟨some 1, some "https://example.com/v.mp4"⟩).bunny_video = some 1 ∧
    (LessonWriteSerializer.update [1] ⟨"", none⟩
        ⟨some 1, some "https://example.com/v.mp4"⟩).video_url = "https://example.com/v.mp4" ∧
    ¬ exclusiveBinding (LessonWriteSerializer.update [1] ⟨"", none⟩
        ⟨some 1, some "https://example.com/v.mp4"⟩) := by
  decide

/-- C6 (amended): create always leaves at most one binding set; update
preserves exclusivity provided the single write does not supply both a bunny
video id and a non-empty external URL (a write supplying both leaves both
set, as the counterexample shows). -/
theorem c6_binding_exclusivity (existing : List Nat) (instv : LessonRec)
    (d : LessonWriteData) :
    exclusiveBinding (LessonWriteSerializer.create existing d) ∧
    (exclusiveBinding instv →
      ¬ (d.bunny_video_id.isSome = true ∧ ∃ u, d.video_url = some u ∧ u ≠ "") →
      exclusiveBinding (LessonWriteSerializer.update existing instv d)) := by
  obtain ⟨bid, durl⟩ := d
  constructor
  · unfold LessonWriteSerializer.create exclusiveBinding
    cases bid with
    | none => exact Or.inr rfl
    | some vid =>
      dsimp only
      split_ifs
      · exact Or.inl rfl
      · exact Or.inr rfl
  · intro hex hno
    unfold LessonWriteSerializer.update exclusiveBinding
    cases bid with
    | some vid =>
      have hu : ∀ u, durl = some u → u = "" := by
        intro u hu'
        by_contra hne
        exact hno ⟨rfl, u, hu', hne⟩
      cases durl with
      | some u =>
        have : u = "" := hu u rfl
        subst this
        dsimp only
        split_ifs <;> exact Or.inl rfl
      | none =>
        dsimp only
        split_ifs
        · exact Or.inl rfl
        · exact hex
    | none =>
      cases durl with
      | some u =>
        dsimp only
        split_ifs with h
        · exact Or.inr rfl
        · have : u = "" := by simpa using h
          subst this
          exact Or.inl rfl
      | none => exact hex

/-- Witness for C6: a create supplying both fields stays exclusive; an update
supplying only an external URL stays exclusive. -/
theorem c6_witness :
    exclusiveBinding (LessonWriteSerializer.create [1]
      ⟨some 1, some "https://example.com/v.mp4"⟩) ∧
    exclusiveBinding (LessonWriteSerializer.update [1] ⟨"", some 1⟩
      ⟨none, some "https://example.com/v.mp4"⟩) :=
  ⟨(c6_binding_exclusivity [1] ⟨"", some 1⟩ ⟨some 1, some "https://example.com/v.mp4"⟩).1,
   (c6_binding_exclusivity [1] ⟨"", some 1⟩ ⟨none, some "https://example.com/v.mp4"⟩).2
     (Or.inl rfl) (by simp)⟩

/-- C10: after a successful fetch, confirm overwrites duration, file size,
blurhash and thumbnail URL from the payload for every remote code; a poll
changes nothing but the status unless the remote code is 4, in which case
(from a non-terminal state) it copies the same metadata. -/
theorem c10_metadata_frame (svc : BunnyStreamService) (video : BunnyVideo) (p : BunnyPayload) :
    ((confirm_bunny_upload svc video (Except.ok p)).2.duration_seconds = p.length ∧
     (confirm_bunny_upload svc video (Except.ok p)).2.file_size_bytes = p.storageSize ∧
     (confirm_bunny_upload svc video (Except.ok p)).2.thumbnail_blurhash =
       p.thumbnailBlurhash.getD "" ∧
     (confirm_bunny_upload svc video (Except.ok p)).2.thumbnail_url =
       "https://" ++ svc.cdn_hostname ++ "/" ++ video.guid ++ "/" ++
         orDefault p.thumbnailFileName "thumbnail.jpg") ∧
    (p.status ≠ 4 →
      ∃ st, (check_video_status svc video (Except.ok p)).1 = { video with status := st }) ∧
    ((video.status = VideoStatus.uploading ∨ video.status = VideoStatus.processing) →
      p.status = 4 →
      (check_video_status svc video (Except.ok p)).1.duration_seconds = p.length ∧
      (check_video_status svc video (Except.ok p)).1.file_size_bytes = p.storageSize ∧
      (check_video_status svc video (Except.ok p)).1.thumbnail_blurhash =
        p.thumbnailBlurhash.getD "" ∧
      (check_video_status svc video (Except.ok p)).1.thumbnail_url =
        "https://" ++ svc.cdn_hostname ++ "/" ++ video.guid ++ "/" ++
          orDefault p.thumbnailFileName "thumbnail.jpg") := by
  refine ⟨⟨rfl, rfl, rfl, rfl⟩, ?_, ?_⟩
  · intro hne4
    unfold check_video_status
    split
    · dsimp only
      rw [if_neg hne4]
      split_ifs
      · exact ⟨VideoStatus.failed, rfl⟩
      · exact ⟨video.status, rfl⟩
    · exact ⟨video.status, rfl⟩
  · intro hnt h4
    unfold check_video_status
    rw [if_pos hnt]
    simp [h4]

/-- Witness for C10: with remote code 2, confirm still copies the payload
metadata while poll leaves everything but the status; with code 4, poll
copies the metadata. -/
theorem c10_witness :
    (confirm_bunny_upload svcW videoUploading (Except.ok (payloadW 2))).2.duration_seconds =
      (payloadW 2).length ∧
    (∃ st, (check_video_status svcW videoUploading (Except.ok (payloadW 2))).1 =
      { videoUploading with status := st }) ∧
    (check_video_status svcW videoUploading (Except.ok (payloadW 4))).1.duration_seconds =
      (payloadW 4).length :=
  ⟨(c10_metadata_frame svcW videoUploading (payloadW 2)).1.1,
   (c10_metadata_frame svcW videoUploading (payloadW 2)).2.1 (by decide),
   ((c10_metadata_frame svcW videoUploading (payloadW 4)).2.2 (Or.inl rfl) rfl).1⟩

/-- Witness for C9: a video referenced by two lessons is kept with a conflict
response; an unreferenced video is deleted locally even when the remote
deletion raises. -/
theorem c9_witness :
    delete_bunny_video 2 (Except.ok true) = (DeleteResponse.conflict, true) ∧
    delete_bunny_video 0 (Except.error "boom") = (DeleteResponse.deleted, false) :=
  ⟨(c9_referential_guard 2 (Except.ok true)).1 (by decide),
   (c9_referential_guard 0 (Except.error "boom")).2 rfl⟩

end CourseVideo
